import Mathlib

/-!
# Shallow embedding of the shebe Zed extension provisioning core

Source: `src/extensions/zed/src/lib.rs` of rhobimd-oss/shebe-releases.

The extension has one piece of state (`cached_binary_path`), one internal
operation (`get_or_download_binary`) and one host-facing operation
(`context_server_command`).  The external collaborators
(`zed::latest_github_release`, `zed::current_platform`, `zed::download_file`,
`zed::make_file_executable`, `std::env::current_dir`) are modelled as an
environment of results, and every collaborator invocation is recorded in an
explicit effect trace so that ordering and idempotence properties can be
stated.
-/

namespace Shebe

/-- `zed::Os` (the three operating systems the Zed API reports). -/
inductive Os where
  | mac
  | linux
  | windows
deriving DecidableEq

/-- `zed::Architecture`. -/
inductive Architecture where
  | aarch64
  | x8664
  | x86
deriving DecidableEq

/-- One release asset: `zed::GithubReleaseAsset` (`name`, `download_url`). -/
structure GithubReleaseAsset where
  name : String
  download_url : String
deriving DecidableEq

/-- `zed::GithubRelease`: a version tag plus its asset list. -/
structure GithubRelease where
  version : String
  assets : List GithubReleaseAsset
deriving DecidableEq

/-- `zed::GithubReleaseOptions` as passed to `latest_github_release`. -/
structure GithubReleaseOptions where
  require_assets : Bool
  pre_release : Bool
deriving DecidableEq

/-- `zed::DownloadedFileType`. -/
inductive DownloadedFileType where
  | gzip
  | gzipTar
  | zip
  | uncompressed
deriving DecidableEq

/-- `zed::Command` (lib.rs lines 122-126): command string, args, env pairs. -/
structure Command where
  command : String
  args : List String
  env : List (String × String)
deriving DecidableEq

/-- The extension state: the single `cached_binary_path` slot
(lib.rs lines 6-8). -/
structure ShebeExtension where
  cached_binary_path : Option String
deriving DecidableEq

/-- `ShebeExtension::new` (lib.rs lines 100-104): the cache starts empty. -/
def ShebeExtension.new : ShebeExtension :=
  { cached_binary_path := none }

/-- One observable collaborator invocation.  `fetchRelease` is a call to
`zed::latest_github_release`, `downloadFile` to `zed::download_file`,
`makeFileExecutable` to `zed::make_file_executable`, and `cacheWrite` is an
assignment to the `cached_binary_path` field. -/
inductive Effect where
  | fetchRelease (repo : String) (opts : GithubReleaseOptions)
  | downloadFile (url : String) (dest : String) (ty : DownloadedFileType)
  | makeFileExecutable (path : String)
  | cacheWrite (path : String)
deriving DecidableEq

/-- The environment a session runs against: the outcome each external
collaborator would produce if invoked. -/
structure Env where
  latest_github_release : Except String GithubRelease
  current_platform : Os × Architecture
  download_file : String → String → DownloadedFileType → Except String Unit
  make_file_executable : String → Except String Unit

/-- The pure platform-to-asset-name resolution inlined in
`get_or_download_binary` (lib.rs lines 26-64): map the OS to its token
(rejecting Windows), map the architecture to its token (rejecting Linux ARM
and 32-bit x86), pick the `-musl` suffix exactly for Linux, and assemble
`shebe-<version>-<os>-<arch><suffix>.tar.gz`. -/
def resolveAssetName (version : String) (os : Os) (arch : Architecture) :
    Except String String :=
  match (match os with
         | .mac => Except.ok "darwin"
         | .linux => Except.ok "linux"
         | .windows => Except.error "shebe does not support Windows") with
  | .error e => .error e
  | .ok os_str =>
    match (match arch with
           | .aarch64 =>
             if os_str == "linux" then
               Except.error "shebe does not support Linux ARM"
             else
               Except.ok "aarch64"
           | .x8664 => Except.ok "x86_64"
           | .x86 => Except.error "shebe does not support 32-bit x86") with
    | .error e => .error e
    | .ok arch_str =>
      let suffix := if os_str == "linux" then "-musl" else ""
      .ok ("shebe-" ++ version ++ "-" ++ os_str ++ "-" ++ arch_str
            ++ suffix ++ ".tar.gz")

/-- `ShebeExtension::get_or_download_binary` (lib.rs lines 11-96), returning
the result together with the trace of collaborator invocations in order.
On a cache hit it returns immediately with an empty trace; otherwise it
fetches the latest release, reads the platform, resolves the asset name
(lines 26-64, factored as `resolveAssetName`), looks the name up in the
release's assets, downloads/extracts into `shebe-<version>`, and marks
`shebe-<version>/shebe-mcp` executable. -/
def get_or_download_binary (self : ShebeExtension) (env : Env) :
    Except String String × List Effect :=
  match self.cached_binary_path with
  | some path => (.ok path, [])
  | none =>
    let opts : GithubReleaseOptions :=
      { require_assets := true, pre_release := false }
    let fetched := [Effect.fetchRelease "rhobimd-oss/shebe" opts]
    match env.latest_github_release with
    | .error e => (.error e, fetched)
    | .ok release =>
      let os := env.current_platform.1
      let arch := env.current_platform.2
      match resolveAssetName release.version os arch with
      | .error e => (.error e, fetched)
      | .ok asset_name =>
        match release.assets.find? (fun a => a.name == asset_name) with
        | none =>
          (.error ("no release asset matching '" ++ asset_name ++ "'"),
           fetched)
        | some asset =>
          let extract_dir := "shebe-" ++ release.version
          let effs := fetched
            ++ [Effect.downloadFile asset.download_url extract_dir .gzipTar]
          match env.download_file asset.download_url extract_dir .gzipTar with
          | .error e => (.error e, effs)
          | .ok _ =>
            let binary_path := extract_dir ++ "/shebe-mcp"
            let effs2 := effs ++ [Effect.makeFileExecutable binary_path]
            match env.make_file_executable binary_path with
            | .error e => (.error e, effs2)
            | .ok _ => (.ok binary_path, effs2)

/-- `Extension::context_server_command` (lib.rs lines 106-127): run
`get_or_download_binary`, store the returned (relative) path in the cache,
join it onto the current working directory `cwd`
(`env::current_dir().join(..)`), and hand back the command.  Returns the
result, the updated extension state, and the effect trace. -/
def context_server_command (self : ShebeExtension) (env : Env) (cwd : String) :
    Except String Command × ShebeExtension × List Effect :=
  match get_or_download_binary self env with
  | (.error e, effs) => (.error e, self, effs)
  | (.ok binary_path, effs) =>
    let self2 : ShebeExtension := { cached_binary_path := some binary_path }
    let full_path := cwd ++ "/" ++ binary_path
    (.ok { command := full_path, args := [], env := [] }, self2,
     effs ++ [Effect.cacheWrite binary_path])

/-- A platform pair rejected by lib.rs lines 26-53: Windows, 32-bit x86, or
the Linux/ARM combination. -/
def unsupportedPlatform (os : Os) (arch : Architecture) : Prop :=
  os = .windows ∨ arch = .x86 ∨ (os = .linux ∧ arch = .aarch64)

instance (os : Os) (arch : Architecture) :
    Decidable (unsupportedPlatform os arch) := by
  unfold unsupportedPlatform
  infer_instance

/-- Concrete environment: successful feed answer (release `v1.0.0`, no
assets needed), Windows host, all collaborators succeed. -/
def envWinOk : Env :=
  { latest_github_release := .ok { version := "v1.0.0", assets := [] }
    current_platform := (.windows, .x8664)
    download_file := fun _ _ _ => .ok ()
    make_file_executable := fun _ => .ok () }

/-- Concrete environment: release `v1.0.0` carrying exactly the asset the
resolver computes for a mac/x86_64 host; all collaborators succeed. -/
def envMacOk : Env :=
  { latest_github_release := .ok
      { version := "v1.0.0"
        assets := [{ name := "shebe-v1.0.0-darwin-x86_64.tar.gz"
                     download_url := "https://example.invalid/a.tar.gz" }] }
    current_platform := (.mac, .x8664)
    download_file := fun _ _ _ => .ok ()
    make_file_executable := fun _ => .ok () }

/-- Concrete environment: release `v1.0.0` whose only asset name does not
match what the resolver computes for a mac/x86_64 host. -/
def envMacMismatch : Env :=
  { latest_github_release := .ok
      { version := "v1.0.0"
        assets := [{ name := "other.tar.gz"
                     download_url := "https://example.invalid/o.tar.gz" }] }
    current_platform := (.mac, .x8664)
    download_file := fun _ _ _ => .ok ()
    make_file_executable := fun _ => .ok () }

/-- On any platform pair rejected by lib.rs lines 26-53 the resolver
returns an error, whatever the version. -/
theorem resolveAssetName_error_of_unsupported (v : String) {os : Os}
    {arch : Architecture} (h : unsupportedPlatform os arch) :
    ∃ e, resolveAssetName v os arch = .error e := by
  cases os <;> cases arch <;>
    first
      | exact ⟨_, rfl⟩
      | exact absurd h (by decide)

end Shebe

namespace Shebe

/-- C1: asset-name resolution yields `shebe-<v>-darwin-x86_64.tar.gz` for
(mac, x86_64), `shebe-<v>-linux-x86_64-musl.tar.gz` for (linux, x86_64) and
`shebe-<v>-darwin-aarch64.tar.gz` for (mac, aarch64): base
`shebe-<version>-<os>-<arch>` with `-musl` exactly for linux, then
`.tar.gz`. -/
theorem resolve_asset_name_table (v : String) :
    resolveAssetName v .mac .x8664
        = .ok ("shebe-" ++ v ++ "-darwin-x86_64.tar.gz")
    ∧ resolveAssetName v .linux .x8664
        = .ok ("shebe-" ++ v ++ "-linux-x86_64-musl.tar.gz")
    ∧ resolveAssetName v .mac .aarch64
        = .ok ("shebe-" ++ v ++ "-darwin-aarch64.tar.gz") := by
  refine ⟨?_, ?_, ?_⟩ <;>
    · show Except.ok _ = Except.ok _
      refine congrArg Except.ok (String.ext ?_)
      simp only [String.data_append, List.append_assoc]
      congr 2

/-- C2 counterexample: on a Windows host with a reachable feed, the call
fails as claimed, but its effect trace already contains the
release-metadata fetch — the platform check does NOT run before the
network call (lib.rs fetches at lines 16-22, checks the OS at lines
26-34). -/
theorem unsupported_platform_still_fetches :
    get_or_download_binary ShebeExtension.new envWinOk =
      (.error "shebe does not support Windows",
       [Effect.fetchRelease "rhobimd-oss/shebe"
         { require_assets := true, pre_release := false }]) := rfl

/-- C2 amended: on an unsupported platform with a successful feed answer,
provisioning fails after issuing exactly one collaborator invocation — the
release-metadata fetch; the platform check runs after that fetch but
before any download, extraction or permission change. -/
theorem unsupported_platform_fails_after_fetch (s : ShebeExtension)
    (env : Env) (r : GithubRelease)
    (hc : s.cached_binary_path = none)
    (hr : env.latest_github_release = .ok r)
    (hp : unsupportedPlatform env.current_platform.1 env.current_platform.2) :
    (∃ e, (get_or_download_binary s env).1 = .error e)
    ∧ (get_or_download_binary s env).2 =
        [Effect.fetchRelease "rhobimd-oss/shebe"
          { require_assets := true, pre_release := false }] := by
  obtain ⟨e, he⟩ := resolveAssetName_error_of_unsupported r.version hp
  refine ⟨⟨e, ?_⟩, ?_⟩ <;> simp only [get_or_download_binary, hc, hr, he]

/-- Witness for the amended C2 theorem at a concrete state, environment and
release. -/
theorem unsupported_platform_fails_after_fetch_witness :
    (∃ e, (get_or_download_binary ShebeExtension.new envWinOk).1 = .error e)
    ∧ (get_or_download_binary ShebeExtension.new envWinOk).2 =
        [Effect.fetchRelease "rhobimd-oss/shebe"
          { require_assets := true, pre_release := false }] :=
  unsupported_platform_fails_after_fetch ShebeExtension.new envWinOk
    { version := "v1.0.0", assets := [] } rfl rfl (Or.inl rfl)

/-- C6: for every version, resolution for (linux, aarch64) fails with the
error naming the Linux/ARM combination, even though (linux, x86_64) and
(mac, aarch64) both resolve successfully. -/
theorem linux_aarch64_unsupported (v : String) :
    resolveAssetName v .linux .aarch64
        = .error "shebe does not support Linux ARM"
    ∧ (∃ n, resolveAssetName v .linux .x8664 = .ok n)
    ∧ (∃ n, resolveAssetName v .mac .aarch64 = .ok n) :=
  ⟨rfl, ⟨_, rfl⟩, ⟨_, rfl⟩⟩

/-- C7 counterexample: on Windows the x86 resolution error is the
OS-rejection message, which is not the architecture message — the claim
that the x86 rejection reason names the architecture on EVERY OS fails for
windows, whose OS check rejects first (lib.rs lines 29-33 run before lines
47-52). -/
theorem x86_windows_gets_os_reason :
    resolveAssetName "v1.0.0" .windows .x86
        = .error "shebe does not support Windows"
    ∧ "shebe does not support Windows"
        ≠ "shebe does not support 32-bit x86" :=
  ⟨rfl, by decide⟩

/-- C7 amended: resolution with 32-bit x86 fails on every OS and every
version, but the error names the architecture only for mac and linux; for
windows the OS check rejects first with the OS-naming message. -/
theorem x86_always_rejected (v : String) (os : Os) :
    resolveAssetName v os .x86 =
      .error (if os = Os.windows then "shebe does not support Windows"
              else "shebe does not support 32-bit x86") := by
  cases os <;> rfl

/-- A cache hit (lib.rs lines 12-14) returns the stored path at once with
no collaborator invocation. -/
theorem get_or_download_binary_cached (s : ShebeExtension) (env : Env)
    (p : String) (h : s.cached_binary_path = some p) :
    get_or_download_binary s env = (.ok p, []) := by
  simp only [get_or_download_binary, h]

/-- Anatomy of a successful `context_server_command` call: the underlying
`get_or_download_binary` succeeded with some relative path `p`, the new
state caches exactly `p`, the command is `cwd`, a separator, and `p`, and
the trace is the inner trace followed by the cache assignment. -/
theorem context_server_command_ok (s : ShebeExtension) (env : Env)
    (cwd : String) (cmd : Command) (s1 : ShebeExtension) (effs : List Effect)
    (h : context_server_command s env cwd = (.ok cmd, s1, effs)) :
    ∃ p, (get_or_download_binary s env).1 = .ok p
      ∧ s1 = { cached_binary_path := some p }
      ∧ cmd = { command := cwd ++ "/" ++ p, args := [], env := [] }
      ∧ effs = (get_or_download_binary s env).2 ++ [Effect.cacheWrite p] := by
  unfold context_server_command at h
  rcases hg : get_or_download_binary s env with ⟨res, tr⟩
  rw [hg] at h
  cases res with
  | error e => simp at h
  | ok p =>
    simp only [Prod.mk.injEq, Except.ok.injEq] at h
    obtain ⟨hcmd, hs1, heffs⟩ := h
    exact ⟨p, rfl, hs1.symm, hcmd.symm, heffs.symm⟩

/-- C3: after a successful `context_server_command`, any further call to
the provisioning entry point — under any environment, so in particular
without any feed query, download, extraction or permission change —
returns the identical path with an empty effect trace. -/
theorem provision_idempotent (s s1 : ShebeExtension) (env env2 : Env)
    (cwd : String) (cmd : Command) (effs : List Effect)
    (h : context_server_command s env cwd = (.ok cmd, s1, effs)) :
    ∃ p, (get_or_download_binary s env).1 = .ok p
      ∧ get_or_download_binary s1 env2 = (.ok p, []) := by
  obtain ⟨p, h1, hs1, -, -⟩ :=
    context_server_command_ok s env cwd cmd s1 effs h
  exact ⟨p, h1, get_or_download_binary_cached s1 env2 p (by rw [hs1])⟩

/-- Witness for C3: a concrete first call against `envMacOk` populates the
cache, and the second call — run against the hostile `envWinOk`
environment — still returns the same path untouched, with no effects. -/
theorem provision_idempotent_witness :
    ∃ p, (get_or_download_binary ShebeExtension.new envMacOk).1 = .ok p
      ∧ get_or_download_binary
          { cached_binary_path := some "shebe-v1.0.0/shebe-mcp" } envWinOk
          = (.ok p, []) :=
  provision_idempotent ShebeExtension.new
    { cached_binary_path := some "shebe-v1.0.0/shebe-mcp" }
    envMacOk envWinOk "/work"
    { command := "/work/shebe-v1.0.0/shebe-mcp", args := [], env := [] }
    [Effect.fetchRelease "rhobimd-oss/shebe"
       { require_assets := true, pre_release := false },
     Effect.downloadFile "https://example.invalid/a.tar.gz"
       "shebe-v1.0.0" .gzipTar,
     Effect.makeFileExecutable "shebe-v1.0.0/shebe-mcp",
     Effect.cacheWrite "shebe-v1.0.0/shebe-mcp"]
    rfl

/-- C4: whenever `context_server_command` returns an error, the cached
binary path keeps its pre-call value (lib.rs line 112's `?` returns before
the assignment on lines 113-114). -/
theorem no_cache_on_error (s : ShebeExtension) (env : Env) (cwd : String)
    (e : String)
    (h : (context_server_command s env cwd).1 = .error e) :
    (context_server_command s env cwd).2.1.cached_binary_path
      = s.cached_binary_path := by
  unfold context_server_command at h ⊢
  rcases hg : get_or_download_binary s env with ⟨res, tr⟩
  rw [hg] at h
  cases res with
  | error e2 => rfl
  | ok p => simp at h

/-- Witness for C4: the concrete Windows-host failure leaves the cache
empty as it was. -/
theorem no_cache_on_error_witness :
    (context_server_command ShebeExtension.new envWinOk "/work").2.1.cached_binary_path
      = ShebeExtension.new.cached_binary_path :=
  no_cache_on_error ShebeExtension.new envWinOk "/work"
    "shebe does not support Windows" rfl

/-- C5 counterexample: with a release whose only asset is
`other.tar.gz`, the lookup failure message is exactly
`no release asset matching 'shebe-v1.0.0-darwin-x86_64.tar.gz'` — it
carries the computed name but does NOT contain the available asset name
`other.tar.gz` (lib.rs lines 70-75 format only the computed name). -/
theorem asset_error_lacks_available_names :
    (get_or_download_binary ShebeExtension.new envMacMismatch).1 =
      .error "no release asset matching 'shebe-v1.0.0-darwin-x86_64.tar.gz'"
    ∧ ¬ List.IsInfix "other.tar.gz".data
        "no release asset matching 'shebe-v1.0.0-darwin-x86_64.tar.gz'".data :=
  ⟨rfl, by decide⟩

/-- C5 amended: when the resolved name has no exact match in the release's
assets, provisioning fails with the message
`no release asset matching '<name>'`, which carries the computed asset
name — and only that; the available names are not included. -/
theorem asset_not_found_message (s : ShebeExtension) (env : Env)
    (r : GithubRelease) (name : String)
    (hc : s.cached_binary_path = none)
    (hr : env.latest_github_release = .ok r)
    (hres : resolveAssetName r.version env.current_platform.1
        env.current_platform.2 = .ok name)
    (hfind : r.assets.find? (fun a => a.name == name) = none) :
    (get_or_download_binary s env).1
      = .error ("no release asset matching '" ++ name ++ "'")
    ∧ List.IsInfix name.data
        ("no release asset matching '" ++ name ++ "'").data := by
  constructor
  · simp only [get_or_download_binary, hc, hr, hres, hfind]
  · exact ⟨"no release asset matching '".data, "'".data,
      by simp only [String.data_append]⟩

/-- Witness for the amended C5 theorem at the concrete mismatching
release. -/
theorem asset_not_found_message_witness :
    (get_or_download_binary ShebeExtension.new envMacMismatch).1
      = .error ("no release asset matching '"
          ++ "shebe-v1.0.0-darwin-x86_64.tar.gz" ++ "'")
    ∧ List.IsInfix "shebe-v1.0.0-darwin-x86_64.tar.gz".data
        ("no release asset matching '"
          ++ "shebe-v1.0.0-darwin-x86_64.tar.gz" ++ "'").data :=
  asset_not_found_message ShebeExtension.new envMacMismatch
    { version := "v1.0.0"
      assets := [{ name := "other.tar.gz"
                   download_url := "https://example.invalid/o.tar.gz" }] }
    "shebe-v1.0.0-darwin-x86_64.tar.gz" rfl rfl rfl rfl

/-- C8 counterexample: after the first successful call the slot is already
populated, yet a second successful call still performs a cache assignment
(lib.rs lines 113-114 run on every success) — the slot is not written
"exactly once per session". -/
theorem cache_written_on_every_success :
    (context_server_command ShebeExtension.new envMacOk "/work").2.1.cached_binary_path
        = some "shebe-v1.0.0/shebe-mcp"
    ∧ (context_server_command
         (context_server_command ShebeExtension.new envMacOk "/work").2.1
         envMacOk "/work").2.2
        = [Effect.cacheWrite "shebe-v1.0.0/shebe-mcp"] :=
  ⟨rfl, rfl⟩

/-- C8 amended: the cached path starts empty at construction and is
assigned on every successful call, not at most once; but once it holds a
value every further call reassigns that same value, so the stored value
never changes after the first success. -/
theorem cache_stable_once_set (s : ShebeExtension) (env : Env)
    (cwd p : String) (h : s.cached_binary_path = some p) :
    ShebeExtension.new.cached_binary_path = none
    ∧ (context_server_command s env cwd).2.1.cached_binary_path = some p := by
  refine ⟨rfl, ?_⟩
  have hg : get_or_download_binary s env = (.ok p, []) :=
    get_or_download_binary_cached s env p h
  simp only [context_server_command, hg]

/-- Witness for the amended C8 theorem: a populated slot keeps its value
across a further call. -/
theorem cache_stable_once_set_witness :
    ShebeExtension.new.cached_binary_path = none
    ∧ (context_server_command
        { cached_binary_path := some "shebe-v1.0.0/shebe-mcp" }
        envMacOk "/work").2.1.cached_binary_path
      = some "shebe-v1.0.0/shebe-mcp" :=
  cache_stable_once_set
    { cached_binary_path := some "shebe-v1.0.0/shebe-mcp" }
    envMacOk "/work" "shebe-v1.0.0/shebe-mcp" rfl

/-- C9: every release-feed query in a provisioning trace goes to the
`rhobimd-oss/shebe` repository with `require_assets = true` and
`pre_release = false` (lib.rs lines 16-22 — the only feed call site). -/
theorem feed_options_fixed (s : ShebeExtension) (env : Env)
    (repo : String) (opts : GithubReleaseOptions)
    (h : Effect.fetchRelease repo opts ∈ (get_or_download_binary s env).2) :
    opts.require_assets = true ∧ opts.pre_release = false
      ∧ repo = "rhobimd-oss/shebe" := by
  obtain ⟨cache⟩ := s
  cases cache with
  | some p =>
    rw [get_or_download_binary_cached
      { cached_binary_path := some p } env p rfl] at h
    simp at h
  | none =>
    rcases hr : env.latest_github_release with e | release
    · simp only [get_or_download_binary, hr] at h
      simp at h
      exact ⟨by rw [h.2], by rw [h.2], h.1⟩
    · rcases hres : resolveAssetName release.version env.current_platform.1
          env.current_platform.2 with e | name
      · simp only [get_or_download_binary, hr, hres] at h
        simp at h
        exact ⟨by rw [h.2], by rw [h.2], h.1⟩
      · rcases hfind : release.assets.find? (fun a => a.name == name)
            with _ | asset
        · simp only [get_or_download_binary, hr, hres, hfind] at h
          simp at h
          exact ⟨by rw [h.2], by rw [h.2], h.1⟩
        · rcases hdl : env.download_file asset.download_url
              ("shebe-" ++ release.version) .gzipTar with e | u
          · simp only [get_or_download_binary, hr, hres, hfind, hdl] at h
            simp at h
            exact ⟨by rw [h.2], by rw [h.2], h.1⟩
          · rcases hch : env.make_file_executable
                ("shebe-" ++ release.version ++ "/shebe-mcp") with e | u
            all_goals
              simp only [get_or_download_binary, hr, hres, hfind, hdl,
                hch] at h
              simp at h
              exact ⟨by rw [h.2], by rw [h.2], h.1⟩

/-- Witness for C9 at the concrete Windows-host trace, whose single
element is the feed query. -/
theorem feed_options_fixed_witness :
    ({ require_assets := true, pre_release := false }
        : GithubReleaseOptions).require_assets = true
    ∧ ({ require_assets := true, pre_release := false }
        : GithubReleaseOptions).pre_release = false
    ∧ "rhobimd-oss/shebe" = "rhobimd-oss/shebe" :=
  feed_options_fixed ShebeExtension.new envWinOk "rhobimd-oss/shebe"
    { require_assets := true, pre_release := false }
    (List.mem_singleton.mpr rfl)

/-- C10: a successful provisioning run from the empty cache yields the
relative path `shebe-<version>/shebe-mcp`; the command handed to the host
is the working directory joined with that relative path, the cache stores
the relative path, and the absolute command is recomputed per call, so two
calls under different working directories produce different command
strings for the same cached binary. -/
theorem command_path_cwd_dependent (env : Env) (r : GithubRelease)
    (cwd1 cwd2 p : String)
    (hr : env.latest_github_release = .ok r)
    (hok : (get_or_download_binary ShebeExtension.new env).1 = .ok p)
    (hne : cwd1 ≠ cwd2) :
    p = "shebe-" ++ r.version ++ "/shebe-mcp"
    ∧ (context_server_command ShebeExtension.new env cwd1).1
        = .ok { command := cwd1 ++ "/" ++ p, args := [], env := [] }
    ∧ (context_server_command ShebeExtension.new env cwd1).2.1.cached_binary_path
        = some p
    ∧ (context_server_command ShebeExtension.new env cwd1).1
        ≠ (context_server_command ShebeExtension.new env cwd2).1 := by
  rcases hg : get_or_download_binary ShebeExtension.new env with ⟨res, tr⟩
  rw [hg] at hok
  replace hok : res = Except.ok p := hok
  subst hok
  refine ⟨?_, ?_, ?_, ?_⟩
  · simp only [get_or_download_binary, ShebeExtension.new, hr] at hg
    rcases hres : resolveAssetName r.version env.current_platform.1
        env.current_platform.2 with e | name
    · simp only [hres] at hg
      simp at hg
    · simp only [hres] at hg
      rcases hfind : r.assets.find? (fun a => a.name == name)
          with _ | asset
      · simp only [hfind] at hg
        simp at hg
      · simp only [hfind] at hg
        rcases hdl : env.download_file asset.download_url
            ("shebe-" ++ r.version) .gzipTar with e | u
        · simp only [hdl] at hg
          simp at hg
        · simp only [hdl] at hg
          rcases hch : env.make_file_executable
              ("shebe-" ++ r.version ++ "/shebe-mcp") with e | u
          · simp only [hch] at hg
            simp at hg
          · simp only [hch] at hg
            simp only [Prod.mk.injEq, Except.ok.injEq] at hg
            exact hg.1.symm
  · simp only [context_server_command, hg]
  · simp only [context_server_command, hg]
  · intro heq
    simp only [context_server_command, hg, Except.ok.injEq,
      Command.mk.injEq] at heq
    apply hne
    have hdata := congrArg String.data heq.1
    simp only [String.data_append] at hdata
    exact String.ext
      (List.append_cancel_right (List.append_cancel_right hdata))

/-- Witness for C10 at the concrete mac/x86_64 environment and two
distinct working directories. -/
theorem command_path_cwd_dependent_witness :
    ("shebe-v1.0.0/shebe-mcp" : String) = "shebe-" ++ "v1.0.0" ++ "/shebe-mcp"
    ∧ (context_server_command ShebeExtension.new envMacOk "/alpha").1
        = .ok { command := "/alpha" ++ "/" ++ "shebe-v1.0.0/shebe-mcp"
                args := [], env := [] }
    ∧ (context_server_command ShebeExtension.new envMacOk
        "/alpha").2.1.cached_binary_path = some "shebe-v1.0.0/shebe-mcp"
    ∧ (context_server_command ShebeExtension.new envMacOk "/alpha").1
        ≠ (context_server_command ShebeExtension.new envMacOk "/beta").1 :=
  command_path_cwd_dependent envMacOk
    { version := "v1.0.0"
      assets := [{ name := "shebe-v1.0.0-darwin-x86_64.tar.gz"
                   download_url := "https://example.invalid/a.tar.gz" }] }
    "/alpha" "/beta" "shebe-v1.0.0/shebe-mcp" rfl rfl (by decide)

end Shebe
